import Mathlib

/-!
Verification of the Perfect Shot generation core: the request encoder
(`dataUrlToGeminiPart`), the generation client with bounded retry
(`callGeminiWithRetry`, `processGeminiResponse`, `generateVibeBasedImage`)
and the slot orchestrator (`handleGenerateClick` / `handleRegenerateSlot`),
shallowly embedded from the TypeScript source.
-/

set_option maxHeartbeats 1000000
set_option maxRecDepth 8000

namespace PerfectShot

/-- Inline image data carried by a request or response content part:
a media type tag plus a base64 payload (`inlineData` in the SDK part). -/
structure InlineData where
  mimeType : String
  data : String
  deriving DecidableEq

/-- A content part of a request or response: optional inline image data
and optional text, mirroring the SDK `Part` shape used by the source. -/
structure Part where
  inlineData : Option InlineData
  text : Option String
  deriving DecidableEq

/-- Response modalities requested from the generation API. -/
inductive Modality where
  | image
  | text
  deriving DecidableEq

/-- One upstream request as assembled by `callGeminiWithRetry`:
model name, ordered content parts, and requested response modalities. -/
structure GenRequest where
  model : String
  parts : List Part
  responseModalities : List Modality
  deriving DecidableEq

/-- An upstream response: the content parts of the first candidate
(`candidates?.[0]?.content?.parts`, absent modelled as `[]`) and the
aggregated text of the response (`response.text`). -/
structure GenResponse where
  parts : List Part
  text : Option String
  deriving DecidableEq

/-- JavaScript word character, as matched by the regex class backslash-w. -/
def isWordChar (c : Char) : Bool := c.isAlphanum || c == '_'

/-- JavaScript regex line terminators, which the dot of the data-URL regex
does not match. -/
def isLineTerm (c : Char) : Bool :=
  c == '\n' || c == '\r' || c == '\u2028' || c == '\u2029'

/-- Characters of the fixed data-URL header matched by the encoder regex. -/
def headerChars : List Char := "data:image/".data

/-- Characters of the base64 marker between media type and payload. -/
def markerChars : List Char := ";base64,".data

/-- Removes an expected leading character sequence, failing when the input
does not start with it. -/
def dropLead : List Char → List Char → Option (List Char)
  | cs, [] => some cs
  | [], _ :: _ => none
  | c :: cs, p :: ps => if c == p then dropLead cs ps else none

/-- Parses a data URL against the source regex
matching data colon, the image media type with one or more word characters,
the base64 marker, then the payload (dot-star, so free of line terminators);
returns the media-subtype characters and the payload characters. -/
def parseDataUrl (cs : List Char) : Option (List Char × List Char) :=
  match dropLead cs headerChars with
  | none => none
  | some cs1 =>
    match dropLead (cs1.dropWhile isWordChar) markerChars with
    | none => none
    | some rest =>
      if cs1.takeWhile isWordChar = [] then none
      else if rest.any isLineTerm then none
      else some (cs1.takeWhile isWordChar, rest)

/-- The error message thrown by `dataUrlToGeminiPart` on a malformed URL. -/
def invalidFormatMsg : String :=
  "Invalid image data URL format. Expected \x27data:image/...;base64,...\x27"

/-- Embedding of `dataUrlToGeminiPart`: converts a data URL into a request
part with inline data, or fails with the invalid-format error. -/
def dataUrlToGeminiPart (dataUrl : String) : Except String Part :=
  match parseDataUrl dataUrl.data with
  | none => Except.error invalidFormatMsg
  | some (w, d) =>
      Except.ok (Part.mk (some (InlineData.mk ("image/" ++ String.mk w) (String.mk d))) none)

/-- The textual response used for diagnostics: `response.text`, with the
JS-falsy fallback for a missing or empty string. -/
def respText (r : GenResponse) : String :=
  match r.text with
  | some t => if t = "" then "No text response received." else t
  | none => "No text response received."

/-- Error message produced when the response carries no image part. -/
def textFailMsg (r : GenResponse) : String :=
  "The AI model responded with text instead of an image: \"" ++ respText r ++ "\""

/-- The predicate of the source `find` call: the part has inline data. -/
def hasInlineData (p : Part) : Bool := p.inlineData.isSome

/-- Embedding of `processGeminiResponse`: extract the first content part
carrying inline image data as a data URL, else fail with the
text-instead-of-image error. -/
def processGeminiResponse (r : GenResponse) : Except String String :=
  match r.parts.find? hasInlineData with
  | some part =>
      match part.inlineData with
      | some d => Except.ok ("data:" ++ d.mimeType ++ ";base64," ++ d.data)
      | none => Except.error (textFailMsg r)
  | none => Except.error (textFailMsg r)

/-- Whether the pattern occurs at the head of the character list. -/
def leadMatch : List Char → List Char → Bool
  | _, [] => true
  | [], _ :: _ => false
  | c :: cs, p :: ps => c == p && leadMatch cs ps

/-- Whether the pattern occurs anywhere in the character list. -/
def occursIn : List Char → List Char → Bool
  | [], p => leadMatch [] p
  | c :: cs, p => leadMatch (c :: cs) p || occursIn cs p

/-- Embedding of `String.prototype.includes` as used on error messages. -/
def containsStr (s sub : String) : Bool := occursIn s.data sub.data

/-- Embedding of the transient-error classification of
`callGeminiWithRetry`: the message mentions a 500 code, INTERNAL, or 503. -/
def isRetriableError (msg : String) : Bool :=
  containsStr msg "\"code\":500" || containsStr msg "INTERNAL" || containsStr msg "503"

/-- Maximum number of upstream attempts (`maxRetries` in the source). -/
def maxRetries : Nat := 3

/-- First backoff delay in milliseconds (`initialDelay` in the source). -/
def initialDelay : Nat := 1000

/-- The request issued on each attempt: fixed model, the given parts, and
both image and text response modalities. -/
def mkRequest (parts : List Part) : GenRequest :=
  GenRequest.mk "gemini-2.5-flash-image-preview" parts [Modality.image, Modality.text]

deriving instance DecidableEq for Except

/-- Observable trace of one `callGeminiWithRetry` run: the final result,
the requests issued upstream (one per attempt), and the backoff delays
slept in milliseconds. -/
structure RetryTrace where
  result : Except String GenResponse
  requests : List GenRequest
  delays : List Nat
  deriving DecidableEq

/-- The retry loop of `callGeminiWithRetry`, attempt counting from 1; the
upstream oracle gives the outcome of each numbered attempt. The fuel equals
the number of loop iterations still permitted, and running out of fuel
reproduces the unreachable throw after the loop. -/
def retryGo (upstream : GenRequest → Nat → Except String GenResponse) (parts : List Part) :
    Nat → Nat → List GenRequest → List Nat → RetryTrace
  | 0, _, reqs, delays =>
      RetryTrace.mk (Except.error "Gemini API call failed after all retries.") reqs delays
  | fuel + 1, attempt, reqs, delays =>
      match upstream (mkRequest parts) attempt with
      | Except.ok r => RetryTrace.mk (Except.ok r) (reqs ++ [mkRequest parts]) delays
      | Except.error msg =>
          if isRetriableError msg ∧ attempt < maxRetries then
            retryGo upstream parts fuel (attempt + 1) (reqs ++ [mkRequest parts])
              (delays ++ [initialDelay * 2 ^ (attempt - 1)])
          else
            RetryTrace.mk (Except.error msg) (reqs ++ [mkRequest parts]) delays

/-- Embedding of `callGeminiWithRetry`: up to `maxRetries` attempts with
exponential backoff on transient errors. -/
def callGeminiWithRetry (upstream : GenRequest → Nat → Except String GenResponse)
    (parts : List Part) : RetryTrace :=
  retryGo upstream parts maxRetries 1 [] []

/-- The fixed system-level task description of `generateVibeBasedImage`. -/
def baseTextPrompt : String :=
  "You are provided with several photos of the same person to understand their appearance from multiple angles. You are also provided with several \"vibe\" inspiration images.\nYour task is to create a new, photorealistic image of the person from the main photos, but imbued with the aesthetic, color palette, lighting, composition, and overall vibe from the inspiration images.\n\nKey instructions:\n1. Accurately represent the person from the main photos. They must be clearly recognizable.\n2. Perfectly blend the style of the inspiration photos with the person.\n3. Choose the best pose or angle from the provided main photos as a base for the new image, but you can subtly adjust it to better fit the new style.\n4. The final output must be only the image."

/-- Lead-in inserted before the user-supplied instruction. -/
def userPromptLeadIn : String :=
  "\n\nAdditionally, follow these user-provided instructions carefully: "

/-- JavaScript whitespace as stripped by `String.prototype.trim`: tab,
line terminators, space separators, and the byte-order mark. -/
def isJsSpace (c : Char) : Bool :=
  c == '\t' || c == '\n' || c == '\x0b' || c == '\x0c' || c == '\r' || c == ' '
  || c == '\u00a0' || c == '\u1680'
  || ('\u2000' ≤ c && c ≤ '\u200a')
  || c == '\u2028' || c == '\u2029' || c == '\u202f' || c == '\u205f' || c == '\u3000'
  || c == '\ufeff'

/-- Embedding of `String.prototype.trim`: strip JavaScript whitespace from
both ends. -/
def jsTrim (s : String) : String :=
  String.mk (((s.data.dropWhile isJsSpace).reverse.dropWhile isJsSpace).reverse)

/-- The text prompt of `generateVibeBasedImage`: the fixed description with
the trimmed user instruction appended under the source guard (non-empty
string whose trim is non-empty). -/
def buildTextPrompt (userPrompt : String) : String :=
  if userPrompt ≠ "" ∧ jsTrim userPrompt ≠ "" then
    baseTextPrompt ++ (userPromptLeadIn ++ jsTrim userPrompt)
  else baseTextPrompt

/-- The trailing text part of the request payload. -/
def textOnlyPart (userPrompt : String) : Part :=
  Part.mk none (some (buildTextPrompt userPrompt))

/-- Encodes a list of data URLs in order, propagating the first encoding
failure, as the source map over `dataUrlToGeminiPart` does by throwing. -/
def encodeAll : List String → Except String (List Part)
  | [] => Except.ok []
  | u :: us =>
      match dataUrlToGeminiPart u with
      | Except.error e => Except.error e
      | Except.ok p =>
          match encodeAll us with
          | Except.error e => Except.error e
          | Except.ok ps => Except.ok (p :: ps)

/-- The full ordered request payload of `generateVibeBasedImage`: encoded
main images, then encoded inspiration images, then the one text part. -/
def buildParts (mains insps : List String) (userPrompt : String) : Except String (List Part) :=
  match encodeAll mains with
  | Except.error e => Except.error e
  | Except.ok mainParts =>
      match encodeAll insps with
      | Except.error e => Except.error e
      | Except.ok inspParts => Except.ok (mainParts ++ inspParts ++ [textOnlyPart userPrompt])

/-- The phrase the catch block of `generateVibeBasedImage` looks for. -/
def textFallbackPhrase : String := "The AI model responded with text"

/-- Message rethrown when the model answered with text instead of an image. -/
def tooComplexMsg : String :=
  "The model couldn\x27t generate an image with this vibe. It might be too complex."

/-- The catch block of `generateVibeBasedImage`: rewraps any failure of the
attempt into one of the two user-facing messages. -/
def wrapError (msg : String) : String :=
  if containsStr msg textFallbackPhrase then tooComplexMsg
  else "The AI model failed to generate an image. Details: " ++ msg

/-- Observable trace of one `generateVibeBasedImage` call: the final result,
the upstream requests issued, and the backoff delays slept. -/
structure GenerateTrace where
  result : Except String String
  requests : List GenRequest
  delays : List Nat
  deriving DecidableEq

/-- Embedding of `generateVibeBasedImage`: encode the payload, call the
retrying client, extract the image, and rewrap any failure. -/
def generateVibeBasedImage (upstream : GenRequest → Nat → Except String GenResponse)
    (mains insps : List String) (userPrompt : String) : GenerateTrace :=
  match buildParts mains insps userPrompt with
  | Except.error e => GenerateTrace.mk (Except.error (wrapError e)) [] []
  | Except.ok parts =>
      let t := callGeminiWithRetry upstream parts
      match t.result with
      | Except.error msg => GenerateTrace.mk (Except.error (wrapError msg)) t.requests t.delays
      | Except.ok resp =>
          match processGeminiResponse resp with
          | Except.ok url => GenerateTrace.mk (Except.ok url) t.requests t.delays
          | Except.error msg => GenerateTrace.mk (Except.error (wrapError msg)) t.requests t.delays

/-- One slot of the generated-image collection (`GeneratedImage` status). -/
inductive GeneratedImage where
  | pending
  | done (url : String)
  | error (message : String)
  deriving DecidableEq

/-- Conversion of one generation outcome into the slot value written back:
the then-branch writes done, the catch-branch writes error. -/
def slotResult : Except String String → GeneratedImage
  | Except.ok url => GeneratedImage.done url
  | Except.error msg => GeneratedImage.error msg

/-- The initial slot collection of `handleGenerateClick`: `count` pending
entries (array fill with the pending status). -/
def initialImages (count : Nat) : List GeneratedImage :=
  List.replicate count GeneratedImage.pending

/-- Applies the per-slot completion writes of `handleGenerateClick` in the
order the generation promises resolve: each resolution of slot `i` sets
entry `i` to its outcome. -/
def applyOrder (f : Nat → GeneratedImage) (order : List Nat)
    (s : List GeneratedImage) : List GeneratedImage :=
  order.foldl (fun st i => st.set i (f i)) s

/-- Embedding of `handleRegenerateSlot`: returns the successive slot-array
states written, and the number of Generation Client calls issued. Rejected
requests (missing inputs, or a pending slot) write nothing and call nothing;
otherwise the slot is set pending, one client call runs, and its terminal
outcome is written back to the same slot. -/
def handleRegenerateSlot (upstream : GenRequest → Nat → Except String GenResponse)
    (mains insps : List String) (userPrompt : String)
    (s : List GeneratedImage) (index : Nat) : List (List GeneratedImage) × Nat :=
  if mains.length = 0 ∨ insps.length = 0 then ([], 0)
  else if s[index]? = some GeneratedImage.pending then ([], 0)
  else
    let s1 := s.set index GeneratedImage.pending
    let t := generateVibeBasedImage upstream mains insps userPrompt
    ([s1, s1.set index (slotResult t.result)], 1)

/-- The two kinds of writes the source performs on the slot array: a
completion write of a finished generation outcome into slot `i`, and the
pending write of `handleRegenerateSlot` on slot `i`. -/
inductive StepLabel where
  | completeWrite (i : Nat) (outcome : Except String String)
  | regenWrite (i : Nat)

/-- State change of one write on the slot array. -/
def applyStep (s : List GeneratedImage) : StepLabel → List GeneratedImage
  | StepLabel.completeWrite i o => s.set i (slotResult o)
  | StepLabel.regenWrite i => s.set i GeneratedImage.pending

/-- Guard under which the source performs a write: completion writes are
unconditional, while `handleRegenerateSlot` returns early when the slot is
currently pending. -/
def stepAllowed (s : List GeneratedImage) : StepLabel → Prop
  | StepLabel.completeWrite _ _ => True
  | StepLabel.regenWrite i => s[i]? ≠ some GeneratedImage.pending

/-- Whether a slot value is terminal (done or error). -/
def isTerminal : GeneratedImage → Bool
  | GeneratedImage.pending => false
  | GeneratedImage.done _ => true
  | GeneratedImage.error _ => true

/-- The well-formed data URLs of the specification: the fixed header, a
non-empty run of word characters, the base64 marker, then a payload free of
line terminators. -/
def validDataUrl (s : String) : Prop :=
  ∃ w rest : List Char,
    s.data = headerChars ++ (w ++ (markerChars ++ rest))
    ∧ w ≠ []
    ∧ (∀ c ∈ w, isWordChar c = true)
    ∧ (∀ c ∈ rest, isLineTerm c = false)

/-- Base64 alphabet characters, including padding. -/
def isBase64Char (c : Char) : Bool :=
  c.isAlphanum || c == '+' || c == '/' || c == '='

/-- Sample main-image data URL used in concrete witnesses. -/
def sampleMainUrl : String := "data:image/png;base64,AA"

/-- Sample inspiration-image data URL used in concrete witnesses. -/
def sampleInspUrl : String := "data:image/jpeg;base64,BB"

/-- Sample successful upstream response carrying one inline image part. -/
def sampleResp : GenResponse :=
  GenResponse.mk [Part.mk (some (InlineData.mk "image/png" "QQ")) none] none

/-- The payload built from the sample URLs with an empty user instruction. -/
def sampleParts : List Part :=
  [Part.mk (some (InlineData.mk "image/png" "AA")) none,
   Part.mk (some (InlineData.mk "image/jpeg" "BB")) none,
   textOnlyPart ""]

/-- Sample upstream failing transiently twice, then succeeding. -/
def sampleUpOkAt3 : GenRequest → Nat → Except String GenResponse :=
  fun _ n =>
    if n = 1 then Except.error "503"
    else if n = 2 then Except.error "INTERNAL" else Except.ok sampleResp

/-- Sample upstream failing transiently on every attempt. -/
def sampleUpAlways503 : GenRequest → Nat → Except String GenResponse :=
  fun _ _ => Except.error "503 upstream unavailable"

/-- Sample upstream failing permanently on the first attempt. -/
def sampleUpAuthFail : GenRequest → Nat → Except String GenResponse :=
  fun _ _ => Except.error "401 invalid api key"

/-- Sample upstream succeeding immediately with a text-only response. -/
def sampleUpTextOnly : GenRequest → Nat → Except String GenResponse :=
  fun _ _ => Except.ok (GenResponse.mk [Part.mk none (some "I can only answer in words")] (some "I can only answer in words"))

/-- Every run of the retry loop issues one more request than it sleeps
delays: a backoff delay happens only before a retried attempt, never after
the final one. -/
theorem retryGo_requests_delays
    (upstream : GenRequest → Nat → Except String GenResponse) (parts : List Part) :
    ∀ fuel attempt reqs delays, 1 ≤ fuel → attempt + fuel = maxRetries + 1 →
      reqs.length = delays.length →
      (retryGo upstream parts fuel attempt reqs delays).requests.length
        = (retryGo upstream parts fuel attempt reqs delays).delays.length + 1 := by
  intro fuel
  induction fuel with
  | zero => intro attempt reqs delays h1 _ _; omega
  | succ f ih =>
    intro attempt reqs delays _ hsum hlen
    cases h : upstream (mkRequest parts) attempt with
    | ok r => simp [retryGo, h, hlen]
    | error msg =>
      simp only [retryGo, h]
      by_cases hc : isRetriableError msg = true ∧ attempt < maxRetries
      · rw [if_pos hc]
        apply ih
        · have hlt := hc.2
          omega
        · omega
        · simp [hlen]
      · rw [if_neg hc]
        simp [hlen]

/-- A single request/delay length accounting for `callGeminiWithRetry`. -/
theorem callGeminiWithRetry_requests_delays
    (upstream : GenRequest → Nat → Except String GenResponse) (parts : List Part) :
    (callGeminiWithRetry upstream parts).requests.length
      = (callGeminiWithRetry upstream parts).delays.length + 1 := by
  apply retryGo_requests_delays <;> simp [maxRetries]

/-- C1: a Generation Client call whose upstream attempt fails transiently on
the first two attempts and succeeds on the third returns the generated
image, issues exactly 3 upstream requests, and sleeps exactly the backoff
delays 1000 ms (before attempt 2) and 2000 ms (before attempt 3); in every
run, the delays slept are exactly one fewer than the attempts made, so a
delay occurs only before a retried attempt and never after a final one. -/
theorem c1_transient_twice_then_third_success
    (upstream : GenRequest → Nat → Except String GenResponse)
    (mains insps : List String) (u url : String) (ps : List Part)
    (resp : GenResponse) (m1 m2 : String)
    (hbp : buildParts mains insps u = Except.ok ps)
    (h1 : upstream (mkRequest ps) 1 = Except.error m1)
    (ht1 : isRetriableError m1 = true)
    (h2 : upstream (mkRequest ps) 2 = Except.error m2)
    (ht2 : isRetriableError m2 = true)
    (h3 : upstream (mkRequest ps) 3 = Except.ok resp)
    (hproc : processGeminiResponse resp = Except.ok url) :
    callGeminiWithRetry upstream ps =
      RetryTrace.mk (Except.ok resp) [mkRequest ps, mkRequest ps, mkRequest ps] [1000, 2000]
    ∧ generateVibeBasedImage upstream mains insps u =
      GenerateTrace.mk (Except.ok url) [mkRequest ps, mkRequest ps, mkRequest ps] [1000, 2000]
    ∧ ∀ (up : GenRequest → Nat → Except String GenResponse) (qs : List Part),
        (callGeminiWithRetry up qs).requests.length
          = (callGeminiWithRetry up qs).delays.length + 1 := by
  have hret : callGeminiWithRetry upstream ps =
      RetryTrace.mk (Except.ok resp) [mkRequest ps, mkRequest ps, mkRequest ps] [1000, 2000] := by
    rw [show callGeminiWithRetry upstream ps = retryGo upstream ps (2 + 1) 1 [] [] from rfl]
    simp only [retryGo, h1]
    rw [if_pos (⟨ht1, by decide⟩ : isRetriableError m1 = true ∧ 1 < maxRetries)]
    simp only [retryGo, h2]
    rw [if_pos (⟨ht2, by decide⟩ : isRetriableError m2 = true ∧ 2 < maxRetries)]
    simp only [retryGo, h3]
    simp [initialDelay]
  refine ⟨hret, ?_, fun up qs => callGeminiWithRetry_requests_delays up qs⟩
  rw [generateVibeBasedImage, hbp]
  simp only [hret, hproc]

/-- C1 witness: the retry scenario realized with concrete data URLs, a
concrete upstream oracle, and a concrete response. -/
theorem c1_witness :
    isRetriableError "503" = true
    ∧ (callGeminiWithRetry sampleUpOkAt3 sampleParts =
        RetryTrace.mk (Except.ok sampleResp)
          [mkRequest sampleParts, mkRequest sampleParts, mkRequest sampleParts] [1000, 2000]
      ∧ generateVibeBasedImage sampleUpOkAt3 [sampleMainUrl] [sampleInspUrl] "" =
        GenerateTrace.mk (Except.ok "data:image/png;base64,QQ")
          [mkRequest sampleParts, mkRequest sampleParts, mkRequest sampleParts] [1000, 2000]
      ∧ ∀ (up : GenRequest → Nat → Except String GenResponse) (qs : List Part),
          (callGeminiWithRetry up qs).requests.length
            = (callGeminiWithRetry up qs).delays.length + 1) :=
  ⟨by decide,
   c1_transient_twice_then_third_success sampleUpOkAt3 [sampleMainUrl] [sampleInspUrl] ""
     "data:image/png;base64,QQ" sampleParts sampleResp "503" "INTERNAL"
     (by decide) (by decide) (by decide) (by decide) (by decide) (by decide) (by decide)⟩

/-- C2: a Generation Client call whose upstream attempt fails transiently on
every attempt makes exactly 3 attempts (never a fourth) and terminates with
the generation failure wrapping the last transient message. -/
theorem c2_retry_exhaustion
    (upstream : GenRequest → Nat → Except String GenResponse)
    (mains insps : List String) (u : String) (ps : List Part)
    (m1 m2 m3 : String)
    (hbp : buildParts mains insps u = Except.ok ps)
    (h1 : upstream (mkRequest ps) 1 = Except.error m1)
    (ht1 : isRetriableError m1 = true)
    (h2 : upstream (mkRequest ps) 2 = Except.error m2)
    (ht2 : isRetriableError m2 = true)
    (h3 : upstream (mkRequest ps) 3 = Except.error m3)
    (_ht3 : isRetriableError m3 = true)
    (hw : containsStr m3 textFallbackPhrase = false) :
    callGeminiWithRetry upstream ps =
      RetryTrace.mk (Except.error m3) [mkRequest ps, mkRequest ps, mkRequest ps] [1000, 2000]
    ∧ generateVibeBasedImage upstream mains insps u =
      GenerateTrace.mk
        (Except.error ("The AI model failed to generate an image. Details: " ++ m3))
        [mkRequest ps, mkRequest ps, mkRequest ps] [1000, 2000] := by
  have hret : callGeminiWithRetry upstream ps =
      RetryTrace.mk (Except.error m3) [mkRequest ps, mkRequest ps, mkRequest ps] [1000, 2000] := by
    rw [show callGeminiWithRetry upstream ps = retryGo upstream ps (2 + 1) 1 [] [] from rfl]
    simp only [retryGo, h1]
    rw [if_pos (⟨ht1, by decide⟩ : isRetriableError m1 = true ∧ 1 < maxRetries)]
    simp only [retryGo, h2]
    rw [if_pos (⟨ht2, by decide⟩ : isRetriableError m2 = true ∧ 2 < maxRetries)]
    simp only [retryGo, h3]
    rw [if_neg (by simp [maxRetries])]
    simp [initialDelay]
  refine ⟨hret, ?_⟩
  rw [generateVibeBasedImage, hbp]
  simp only [hret, wrapError, hw, Bool.false_eq_true, if_false]

/-- C2 witness: three consecutive concrete 503 failures. -/
theorem c2_witness :
    isRetriableError "503 upstream unavailable" = true
    ∧ (callGeminiWithRetry sampleUpAlways503 sampleParts =
        RetryTrace.mk (Except.error "503 upstream unavailable")
          [mkRequest sampleParts, mkRequest sampleParts, mkRequest sampleParts] [1000, 2000]
      ∧ generateVibeBasedImage sampleUpAlways503 [sampleMainUrl] [sampleInspUrl] "" =
        GenerateTrace.mk
          (Except.error
            ("The AI model failed to generate an image. Details: " ++ "503 upstream unavailable"))
          [mkRequest sampleParts, mkRequest sampleParts, mkRequest sampleParts] [1000, 2000]) :=
  ⟨by decide,
   c2_retry_exhaustion sampleUpAlways503 [sampleMainUrl] [sampleInspUrl] "" sampleParts
     "503 upstream unavailable" "503 upstream unavailable" "503 upstream unavailable"
     (by decide) (by decide) (by decide) (by decide) (by decide) (by decide) (by decide)
     (by decide)⟩

/-- C3: a Generation Client call whose first upstream attempt fails with an
error not classified as transient fails immediately: exactly one request is
issued, no retry happens, and no backoff delay is slept. -/
theorem c3_permanent_fails_immediately
    (upstream : GenRequest → Nat → Except String GenResponse)
    (ps : List Part) (m : String)
    (h1 : upstream (mkRequest ps) 1 = Except.error m)
    (hnr : isRetriableError m = false) :
    callGeminiWithRetry upstream ps = RetryTrace.mk (Except.error m) [mkRequest ps] [] := by
  rw [show callGeminiWithRetry upstream ps = retryGo upstream ps (2 + 1) 1 [] [] from rfl]
  simp only [retryGo, h1]
  rw [if_neg (by simp [hnr])]
  simp

/-- C3 witness: a concrete permanent authentication failure. -/
theorem c3_witness :
    isRetriableError "401 invalid api key" = false
    ∧ callGeminiWithRetry sampleUpAuthFail sampleParts =
        RetryTrace.mk (Except.error "401 invalid api key") [mkRequest sampleParts] [] :=
  ⟨by decide,
   c3_permanent_fails_immediately sampleUpAuthFail sampleParts "401 invalid api key"
     (by decide) (by decide)⟩

/-- String concatenation concatenates the underlying character lists. -/
theorem strDataAppend (s t : String) : (s ++ t).data = s.data ++ t.data := rfl

/-- A pattern matches at the head of any of its extensions. -/
theorem leadMatch_append (pat ext : List Char) : leadMatch (pat ++ ext) pat = true := by
  induction pat with
  | nil => simp [leadMatch]
  | cons c cs ih => simp [leadMatch, ih]

/-- A head match is an occurrence. -/
theorem occursIn_of_leadMatch (s p : List Char) (h : leadMatch s p = true) :
    occursIn s p = true := by
  cases s with
  | nil => simpa [occursIn] using h
  | cons c cs => simp [occursIn, h]

/-- The text-instead-of-image failure message always contains the phrase
the catch block of `generateVibeBasedImage` looks for. -/
theorem containsStr_textFail (r : GenResponse) :
    containsStr (textFailMsg r) textFallbackPhrase = true := by
  have hdata : (textFailMsg r).data
      = textFallbackPhrase.data
        ++ (" instead of an image: \"".data ++ ((respText r).data ++ "\"".data)) := by
    rw [textFailMsg, strDataAppend, strDataAppend]
    rw [show ("The AI model responded with text instead of an image: \"" : String).data
        = textFallbackPhrase.data ++ " instead of an image: \"".data from by decide]
    simp
  rw [containsStr, hdata]
  exact occursIn_of_leadMatch _ _ (leadMatch_append _ _)

/-- The catch block rewraps the text-instead-of-image failure into the
too-complex message. -/
theorem wrapError_textFail (r : GenResponse) :
    wrapError (textFailMsg r) = tooComplexMsg := by
  simp [wrapError, containsStr_textFail r]

/-- C4: the response extractor returns the first content part carrying
inline image data as a data URL; when no such part exists the call fails
with the text-instead-of-image error carrying the textual response, and
this failure is not retried: after a first successful upstream attempt
whose response has no image part, the whole generate call ends in the
rewrapped error with exactly one upstream request and no backoff delay. -/
theorem c4_response_extraction
    (resp : GenResponse)
    (upstream : GenRequest → Nat → Except String GenResponse)
    (mains insps : List String) (u : String) (ps : List Part)
    (hbp : buildParts mains insps u = Except.ok ps)
    (hup : upstream (mkRequest ps) 1 = Except.ok resp) :
    (∀ part d, resp.parts.find? hasInlineData = some part → part.inlineData = some d →
        processGeminiResponse resp = Except.ok ("data:" ++ d.mimeType ++ ";base64," ++ d.data))
    ∧ (∀ t, resp.text = some t → t ≠ "" → respText resp = t)
    ∧ (resp.parts.find? hasInlineData = none →
        processGeminiResponse resp =
          Except.error ("The AI model responded with text instead of an image: \""
            ++ respText resp ++ "\"")
        ∧ generateVibeBasedImage upstream mains insps u =
            GenerateTrace.mk (Except.error tooComplexMsg) [mkRequest ps] []) := by
  refine ⟨?_, ?_, ?_⟩
  · intro part d hfind hd
    rw [processGeminiResponse, hfind]
    simp [hd]
  · intro t ht hne
    simp [respText, ht, hne]
  · intro hfind
    have hproc : processGeminiResponse resp = Except.error (textFailMsg resp) := by
      rw [processGeminiResponse, hfind]
    have hret : callGeminiWithRetry upstream ps =
        RetryTrace.mk (Except.ok resp) [mkRequest ps] [] := by
      rw [show callGeminiWithRetry upstream ps = retryGo upstream ps (2 + 1) 1 [] [] from rfl]
      simp only [retryGo, hup]
      simp
    refine ⟨by rw [hproc, textFailMsg], ?_⟩
    rw [generateVibeBasedImage, hbp]
    simp only [hret, hproc, wrapError_textFail]

/-- C4 witness: a concrete text-only response from the first attempt. -/
theorem c4_witness :
    buildParts [sampleMainUrl] [sampleInspUrl] "" = Except.ok sampleParts
    ∧ ((∀ part d,
          (GenResponse.mk [Part.mk none (some "I can only answer in words")]
            (some "I can only answer in words")).parts.find? hasInlineData = some part →
          part.inlineData = some d →
          processGeminiResponse
            (GenResponse.mk [Part.mk none (some "I can only answer in words")]
              (some "I can only answer in words"))
            = Except.ok ("data:" ++ d.mimeType ++ ";base64," ++ d.data))
      ∧ (∀ t,
          (GenResponse.mk [Part.mk none (some "I can only answer in words")]
            (some "I can only answer in words")).text = some t → t ≠ "" →
          respText
            (GenResponse.mk [Part.mk none (some "I can only answer in words")]
              (some "I can only answer in words")) = t)
      ∧ ((GenResponse.mk [Part.mk none (some "I can only answer in words")]
            (some "I can only answer in words")).parts.find? hasInlineData = none →
          processGeminiResponse
            (GenResponse.mk [Part.mk none (some "I can only answer in words")]
              (some "I can only answer in words")) =
            Except.error ("The AI model responded with text instead of an image: \""
              ++ respText
                  (GenResponse.mk [Part.mk none (some "I can only answer in words")]
                    (some "I can only answer in words")) ++ "\"")
          ∧ generateVibeBasedImage sampleUpTextOnly [sampleMainUrl] [sampleInspUrl] "" =
              GenerateTrace.mk (Except.error tooComplexMsg) [mkRequest sampleParts] [])) :=
  ⟨by decide,
   c4_response_extraction
     (GenResponse.mk [Part.mk none (some "I can only answer in words")]
       (some "I can only answer in words"))
     sampleUpTextOnly [sampleMainUrl] [sampleInspUrl] "" sampleParts
     (by decide) (by decide)⟩

/-- The value written back at a slot completion is never pending. -/
theorem slotResult_terminal (o : Except String String) : isTerminal (slotResult o) = true := by
  cases o <;> rfl

/-- Completion writes preserve the length of the slot collection. -/
theorem applyOrder_length (f : Nat → GeneratedImage) (order : List Nat)
    (s : List GeneratedImage) : (applyOrder f order s).length = s.length := by
  induction order generalizing s with
  | nil => rfl
  | cons j rest ih => rw [applyOrder, List.foldl_cons, ← applyOrder, ih, List.length_set]

/-- Slots not written by any completion keep their value. -/
theorem applyOrder_not_mem (f : Nat → GeneratedImage) (order : List Nat)
    (s : List GeneratedImage) (i : Nat) (h : i ∉ order) :
    (applyOrder f order s)[i]? = s[i]? := by
  induction order generalizing s with
  | nil => rfl
  | cons j rest ih =>
    rw [applyOrder, List.foldl_cons, ← applyOrder]
    rw [ih _ (fun hm => h (List.mem_cons_of_mem j hm))]
    exact List.getElem?_set_ne (fun hji => h (by rw [← hji]; exact List.mem_cons_self j rest))

/-- A slot written at least once by a completion ends at its outcome. -/
theorem applyOrder_mem (f : Nat → GeneratedImage) (order : List Nat)
    (s : List GeneratedImage) (i : Nat) (h : i ∈ order) (hlen : i < s.length) :
    (applyOrder f order s)[i]? = some (f i) := by
  induction order generalizing s with
  | nil => cases h
  | cons j rest ih =>
    rw [applyOrder, List.foldl_cons, ← applyOrder]
    by_cases hm : i ∈ rest
    · exact ih _ hm (by rw [List.length_set]; exact hlen)
    · have hij : i = j := by
        cases List.mem_cons.mp h with
        | inl h => exact h
        | inr h => exact absurd h hm
      subst hij
      rw [applyOrder_not_mem _ _ _ _ hm]
      exact List.getElem?_set_self hlen

/-- C5: regeneration on a pending slot is rejected leaving the collection
untouched and issuing no call; regeneration on a terminal slot writes
pending to that slot, issues exactly one Generation Client call, writes its
terminal outcome back to that slot, and leaves every other slot unchanged
through both writes. -/
theorem c5_regenerate_single_slot
    (upstream : GenRequest → Nat → Except String GenResponse)
    (mains insps : List String) (u : String)
    (s : List GeneratedImage) (index : Nat)
    (hi : index < s.length) :
    (s[index]? = some GeneratedImage.pending →
      handleRegenerateSlot upstream mains insps u s index = ([], 0))
    ∧ (s[index]? ≠ some GeneratedImage.pending → mains ≠ [] → insps ≠ [] →
      ∃ g, isTerminal g = true
        ∧ handleRegenerateSlot upstream mains insps u s index
            = ([s.set index GeneratedImage.pending,
                (s.set index GeneratedImage.pending).set index g], 1)
        ∧ (s.set index GeneratedImage.pending)[index]? = some GeneratedImage.pending
        ∧ ((s.set index GeneratedImage.pending).set index g)[index]? = some g
        ∧ (∀ j, j ≠ index →
            (s.set index GeneratedImage.pending)[j]? = s[j]?
            ∧ ((s.set index GeneratedImage.pending).set index g)[j]? = s[j]?)) := by
  constructor
  · intro hp
    rw [handleRegenerateSlot]
    by_cases hz : mains.length = 0 ∨ insps.length = 0
    · rw [if_pos hz]
    · rw [if_neg hz, if_pos hp]
  · intro hnp hm hins
    refine ⟨slotResult (generateVibeBasedImage upstream mains insps u).result,
      slotResult_terminal _, ?_, ?_, ?_, ?_⟩
    · rw [handleRegenerateSlot]
      rw [if_neg (by
        push_neg
        exact ⟨fun h => hm (List.length_eq_zero.mp h),
               fun h => hins (List.length_eq_zero.mp h)⟩)]
      rw [if_neg hnp]
    · exact List.getElem?_set_self hi
    · exact List.getElem?_set_self (by rw [List.length_set]; exact hi)
    · intro j hj
      exact ⟨List.getElem?_set_ne (fun h => hj h.symm),
             by rw [List.getElem?_set_ne (fun h => hj h.symm),
                    List.getElem?_set_ne (fun h => hj h.symm)]⟩

/-- C5 witness: rejecting a pending slot and regenerating a done slot in a
concrete two-slot collection. -/
theorem c5_witness :
    (0 < 2
    ∧ (([GeneratedImage.done "u", GeneratedImage.pending] :
          List GeneratedImage)[0]? = some GeneratedImage.pending →
        handleRegenerateSlot sampleUpAuthFail [sampleMainUrl] [sampleInspUrl] ""
          [GeneratedImage.done "u", GeneratedImage.pending] 0 = ([], 0))
    ∧ (([GeneratedImage.done "u", GeneratedImage.pending] :
          List GeneratedImage)[0]? ≠ some GeneratedImage.pending →
        [sampleMainUrl] ≠ [] → [sampleInspUrl] ≠ [] →
      ∃ g, isTerminal g = true
        ∧ handleRegenerateSlot sampleUpAuthFail [sampleMainUrl] [sampleInspUrl] ""
            [GeneratedImage.done "u", GeneratedImage.pending] 0
            = ([([GeneratedImage.done "u", GeneratedImage.pending] :
                  List GeneratedImage).set 0 GeneratedImage.pending,
                (([GeneratedImage.done "u", GeneratedImage.pending] :
                  List GeneratedImage).set 0 GeneratedImage.pending).set 0 g], 1)
        ∧ (([GeneratedImage.done "u", GeneratedImage.pending] :
              List GeneratedImage).set 0 GeneratedImage.pending)[0]?
            = some GeneratedImage.pending
        ∧ ((([GeneratedImage.done "u", GeneratedImage.pending] :
              List GeneratedImage).set 0 GeneratedImage.pending).set 0 g)[0]? = some g
        ∧ (∀ j, j ≠ 0 →
            (([GeneratedImage.done "u", GeneratedImage.pending] :
                List GeneratedImage).set 0 GeneratedImage.pending)[j]?
              = ([GeneratedImage.done "u", GeneratedImage.pending] :
                  List GeneratedImage)[j]?
            ∧ ((([GeneratedImage.done "u", GeneratedImage.pending] :
                  List GeneratedImage).set 0 GeneratedImage.pending).set 0 g)[j]?
              = ([GeneratedImage.done "u", GeneratedImage.pending] :
                  List GeneratedImage)[j]?))) :=
  ⟨by decide,
   (c5_regenerate_single_slot sampleUpAuthFail [sampleMainUrl] [sampleInspUrl] ""
     [GeneratedImage.done "u", GeneratedImage.pending] 0 (by decide)).1,
   (c5_regenerate_single_slot sampleUpAuthFail [sampleMainUrl] [sampleInspUrl] ""
     [GeneratedImage.done "u", GeneratedImage.pending] 0 (by decide)).2⟩

/-- C6: once every slot index has received its completion write — in any
completion order covering all indices — the batch state assigns every slot
its outcome, no slot is pending, and a failed outcome shows up as that
slot's error state; the batch resolves this way no matter how many slots
errored, and a per-slot failure never escapes as anything but that slot's
error value. -/
theorem c6_await_all_terminal
    (count : Nat) (outcomes : Nat → Except String String) (order : List Nat)
    (hcover : ∀ i, i < count → i ∈ order) :
    (applyOrder (fun i => slotResult (outcomes i)) order (initialImages count)).length = count
    ∧ (∀ i, i < count →
        (applyOrder (fun i => slotResult (outcomes i)) order (initialImages count))[i]?
          = some (slotResult (outcomes i)))
    ∧ (∀ i, i < count →
        ∃ g, (applyOrder (fun i => slotResult (outcomes i)) order (initialImages count))[i]?
            = some g ∧ isTerminal g = true)
    ∧ (∀ i msg, i < count → outcomes i = Except.error msg →
        (applyOrder (fun i => slotResult (outcomes i)) order (initialImages count))[i]?
          = some (GeneratedImage.error msg)) := by
  have hlen : ∀ i, i < count → i < (initialImages count).length := by
    intro i hi
    rw [initialImages, List.length_replicate]
    exact hi
  have hmem : ∀ i, i < count →
      (applyOrder (fun i => slotResult (outcomes i)) order (initialImages count))[i]?
        = some (slotResult (outcomes i)) := by
    intro i hi
    exact applyOrder_mem _ _ _ _ (hcover i hi) (hlen i hi)
  refine ⟨?_, hmem, ?_, ?_⟩
  · rw [applyOrder_length, initialImages, List.length_replicate]
  · intro i hi
    exact ⟨slotResult (outcomes i), hmem i hi, slotResult_terminal _⟩
  · intro i msg hi ho
    rw [hmem i hi, ho]
    rfl

/-- C6 witness: a two-slot batch, one success and one failure, completing
in reverse order. -/
theorem c6_witness :
    (∀ i, i < 2 → i ∈ [1, 0])
    ∧ ((applyOrder
          (fun i => slotResult (if i = 0 then Except.ok "u" else Except.error "m"))
          [1, 0] (initialImages 2)).length = 2
    ∧ (∀ i, i < 2 →
        (applyOrder
          (fun i => slotResult (if i = 0 then Except.ok "u" else Except.error "m"))
          [1, 0] (initialImages 2))[i]?
          = some (slotResult (if i = 0 then Except.ok "u" else Except.error "m")))
    ∧ (∀ i, i < 2 →
        ∃ g, (applyOrder
            (fun i => slotResult (if i = 0 then Except.ok "u" else Except.error "m"))
            [1, 0] (initialImages 2))[i]? = some g ∧ isTerminal g = true)
    ∧ (∀ i msg, i < 2 →
        (if i = 0 then Except.ok "u" else Except.error "m") = Except.error msg →
        (applyOrder
          (fun i => slotResult (if i = 0 then Except.ok "u" else Except.error "m"))
          [1, 0] (initialImages 2))[i]?
          = some (GeneratedImage.error msg))) :=
  ⟨by decide,
   c6_await_all_terminal 2 (fun i => if i = 0 then Except.ok "u" else Except.error "m")
     [1, 0] (by decide)⟩

/-- C7: a batch of any requested size starts as exactly that many pending
slots; every write preserves the collection's length; an allowed write
moves a pending slot only to pending-unchanged or to a terminal value; and
a terminal slot becomes pending again only through the regeneration write
aimed at that very slot. -/
theorem c7_collection_invariants (count : Nat) (_h1 : 1 ≤ count) (_h8 : count ≤ 8) :
    (initialImages count).length = count
    ∧ (∀ i, i < count → (initialImages count)[i]? = some GeneratedImage.pending)
    ∧ (∀ (s : List GeneratedImage) (l : StepLabel), (applyStep s l).length = s.length)
    ∧ (∀ (s : List GeneratedImage) (l : StepLabel) (i : Nat), stepAllowed s l →
        s[i]? = some GeneratedImage.pending →
        (applyStep s l)[i]? = some GeneratedImage.pending
          ∨ ∃ g, (applyStep s l)[i]? = some g ∧ isTerminal g = true)
    ∧ (∀ (s : List GeneratedImage) (l : StepLabel) (i : Nat) (g : GeneratedImage),
        stepAllowed s l → s[i]? = some g → isTerminal g = true →
        (applyStep s l)[i]? = some GeneratedImage.pending →
        l = StepLabel.regenWrite i) := by
  refine ⟨by rw [initialImages, List.length_replicate],
    fun i hi => List.getElem?_replicate_of_lt hi, ?_, ?_, ?_⟩
  · intro s l
    cases l <;> simp [applyStep]
  · intro s l i hall hp
    have hilen : i < s.length := (List.getElem?_eq_some.mp hp).1
    cases l with
    | completeWrite j o =>
      by_cases hij : i = j
      · subst hij
        right
        exact ⟨slotResult o, List.getElem?_set_self hilen, slotResult_terminal o⟩
      · left
        rw [applyStep, List.getElem?_set_ne (fun h => hij h.symm)]
        exact hp
    | regenWrite j =>
      by_cases hij : i = j
      · subst hij
        exact absurd hp hall
      · left
        rw [applyStep, List.getElem?_set_ne (fun h => hij h.symm)]
        exact hp
  · intro s l i g hall hg hterm hback
    have hilen : i < s.length := (List.getElem?_eq_some.mp hg).1
    cases l with
    | completeWrite j o =>
      by_cases hij : i = j
      · subst hij
        rw [applyStep, List.getElem?_set_self hilen] at hback
        have := Option.some.inj hback
        have hterm2 := slotResult_terminal o
        rw [this] at hterm2
        simp [isTerminal] at hterm2
      · rw [applyStep, List.getElem?_set_ne (fun h => hij h.symm)] at hback
        rw [hg] at hback
        have := Option.some.inj hback
        rw [this] at hterm
        simp [isTerminal] at hterm
    | regenWrite j =>
      by_cases hij : i = j
      · rw [hij]
      · rw [applyStep, List.getElem?_set_ne (fun h => hij h.symm)] at hback
        rw [hg] at hback
        have := Option.some.inj hback
        rw [this] at hterm
        simp [isTerminal] at hterm

/-- C7 witness: the invariants instantiated at a four-slot batch. -/
theorem c7_witness :
    1 ≤ 4
    ∧ ((initialImages 4).length = 4
    ∧ (∀ i, i < 4 → (initialImages 4)[i]? = some GeneratedImage.pending)
    ∧ (∀ (s : List GeneratedImage) (l : StepLabel), (applyStep s l).length = s.length)
    ∧ (∀ (s : List GeneratedImage) (l : StepLabel) (i : Nat), stepAllowed s l →
        s[i]? = some GeneratedImage.pending →
        (applyStep s l)[i]? = some GeneratedImage.pending
          ∨ ∃ g, (applyStep s l)[i]? = some g ∧ isTerminal g = true)
    ∧ (∀ (s : List GeneratedImage) (l : StepLabel) (i : Nat) (g : GeneratedImage),
        stepAllowed s l → s[i]? = some g → isTerminal g = true →
        (applyStep s l)[i]? = some GeneratedImage.pending →
        l = StepLabel.regenWrite i)) :=
  ⟨by decide, c7_collection_invariants 4 (by decide) (by decide)⟩

/-- A string never equals itself extended by a non-empty suffix. -/
theorem self_ne_append (a b : String) (hb : b ≠ "") : a ≠ a ++ b := by
  intro he
  have hl := congrArg String.length he
  rw [String.length_append] at hl
  have hz : b.length = 0 := by omega
  apply hb
  cases b with
  | mk l =>
    cases l with
    | nil => rfl
    | cons c cs => simp [String.length] at hz

/-- C8 counterexample: for the whitespace-only user instruction, which is a
non-empty string, the source appends nothing to the fixed task description,
while the claim requires the instruction to be appended for every non-empty
instruction. -/
theorem c8_counterexample :
    (" " : String) ≠ ""
    ∧ buildTextPrompt " " = baseTextPrompt
    ∧ buildTextPrompt " " ≠ baseTextPrompt ++ (userPromptLeadIn ++ jsTrim " ")
    ∧ buildTextPrompt " " ≠ baseTextPrompt ++ (userPromptLeadIn ++ (" " : String)) := by
  have hbase : buildTextPrompt " " = baseTextPrompt := by
    rw [buildTextPrompt, if_neg (fun hc => hc.2 (by decide))]
  refine ⟨by decide, hbase, ?_, ?_⟩
  · rw [hbase]
    exact self_ne_append _ _ (by decide)
  · rw [hbase]
    exact self_ne_append _ _ (by decide)

/-- C8 (amended): the request payload is exactly the encoded subjects in
order, then the encoded styles in order, then one text part holding the
fixed task description with the trimmed user instruction appended exactly
when the instruction trims to a non-empty string; every upstream request
asks for both image and text response modalities. -/
theorem c8_payload_order
    (mains insps : List String) (u : String) (A B : List Part)
    (hm : encodeAll mains = Except.ok A)
    (hins : encodeAll insps = Except.ok B) :
    buildParts mains insps u = Except.ok (A ++ B ++ [textOnlyPart u])
    ∧ textOnlyPart u = Part.mk none (some (buildTextPrompt u))
    ∧ (jsTrim u ≠ "" →
        buildTextPrompt u = baseTextPrompt ++ (userPromptLeadIn ++ jsTrim u))
    ∧ (jsTrim u = "" → buildTextPrompt u = baseTextPrompt)
    ∧ (∀ ps : List Part, (mkRequest ps).responseModalities = [Modality.image, Modality.text]) := by
  refine ⟨?_, rfl, ?_, ?_, fun ps => rfl⟩
  · rw [buildParts, hm, hins]
  · intro ht
    have hne : u ≠ "" := fun he => ht (by rw [he]; rfl)
    rw [buildTextPrompt, if_pos ⟨hne, ht⟩]
  · intro ht
    rw [buildTextPrompt, if_neg (fun hc => hc.2 ht)]

/-- C8 witness: the amended payload shape at concrete subject and style
URLs with a concrete user instruction. -/
theorem c8_witness :
    encodeAll [sampleMainUrl] =
      Except.ok [Part.mk (some (InlineData.mk "image/png" "AA")) none]
    ∧ (buildParts [sampleMainUrl] [sampleInspUrl] "add rain" =
        Except.ok ([Part.mk (some (InlineData.mk "image/png" "AA")) none]
          ++ [Part.mk (some (InlineData.mk "image/jpeg" "BB")) none]
          ++ [textOnlyPart "add rain"])
      ∧ textOnlyPart "add rain" = Part.mk none (some (buildTextPrompt "add rain"))
      ∧ (jsTrim "add rain" ≠ "" →
          buildTextPrompt "add rain"
            = baseTextPrompt ++ (userPromptLeadIn ++ jsTrim "add rain"))
      ∧ (jsTrim "add rain" = "" → buildTextPrompt "add rain" = baseTextPrompt)
      ∧ (∀ ps : List Part,
          (mkRequest ps).responseModalities = [Modality.image, Modality.text])) :=
  ⟨by decide,
   c8_payload_order [sampleMainUrl] [sampleInspUrl] "add rain"
     [Part.mk (some (InlineData.mk "image/png" "AA")) none]
     [Part.mk (some (InlineData.mk "image/jpeg" "BB")) none]
     (by decide) (by decide)⟩

/-- Removing a leading pattern succeeds exactly on its extensions. -/
theorem dropLead_eq_some (p : List Char) :
    ∀ cs r, dropLead cs p = some r → cs = p ++ r := by
  induction p with
  | nil =>
    intro cs r h
    rw [dropLead] at h
    rw [List.nil_append]
    exact Option.some.inj h
  | cons q qs ih =>
    intro cs r h
    cases cs with
    | nil => simp [dropLead] at h
    | cons c cs2 =>
      rw [dropLead] at h
      by_cases hcq : c == q
      · rw [if_pos hcq] at h
        have hc : c = q := eq_of_beq hcq
        rw [hc, List.cons_append]
        exact congrArg (q :: ·) (ih cs2 r h)
      · rw [if_neg hcq] at h
        cases h

/-- Removing a leading pattern from one of its extensions yields the rest. -/
theorem dropLead_self_append (p r : List Char) : dropLead (p ++ r) p = some r := by
  induction p with
  | nil => simp [dropLead]
  | cons q qs ih => simp [dropLead, ih]

/-- Splitting a word run followed by the base64 marker. -/
theorem span_word_marker (w rest : List Char) (hw : ∀ c ∈ w, isWordChar c = true) :
    (w ++ (markerChars ++ rest)).takeWhile isWordChar = w
    ∧ (w ++ (markerChars ++ rest)).dropWhile isWordChar = markerChars ++ rest := by
  induction w with
  | nil =>
    simp only [List.nil_append]
    rw [show markerChars = ';' :: "base64,".data from by decide]
    constructor
    · simp [List.takeWhile_cons, show isWordChar ';' = false from by decide]
    · simp [List.dropWhile_cons, show isWordChar ';' = false from by decide]
  | cons c cs ih =>
    have hc := hw c (List.mem_cons_self c cs)
    have hcs : ∀ x ∈ cs, isWordChar x = true := fun x hx => hw x (List.mem_cons_of_mem c hx)
    simp [List.takeWhile_cons, List.dropWhile_cons, hc, (ih hcs).1, (ih hcs).2]

/-- The parser accepts exactly the well-formed decompositions. -/
theorem parseDataUrl_append (w rest : List Char) (hw1 : w ≠ [])
    (hw : ∀ c ∈ w, isWordChar c = true) (hr : ∀ c ∈ rest, isLineTerm c = false) :
    parseDataUrl (headerChars ++ (w ++ (markerChars ++ rest))) = some (w, rest) := by
  have hany : rest.any isLineTerm = false := by
    by_contra hco
    have : rest.any isLineTerm = true := by
      cases hx : rest.any isLineTerm
      · exact absurd hx hco
      · rfl
    obtain ⟨c, hc, hlt⟩ := List.any_eq_true.mp this
    rw [hr c hc] at hlt
    cases hlt
  simp only [parseDataUrl, dropLead_self_append, (span_word_marker w rest hw).1,
    (span_word_marker w rest hw).2]
  simp [hw1, hany]

/-- Rebuilding a string from its characters is the identity. -/
theorem stringMkData (s : String) : String.mk s.data = s := by cases s; rfl

/-- C9: encoding an asset payload succeeds and yields an inline-data part
exactly when the payload matches the embedded-data format (the fixed data
URL header, a non-empty image media subtype of word characters, the base64
marker, and a line-terminator-free payload); otherwise it fails with the
encoding error, which aborts that generate attempt before any upstream
request is issued and surfaces as the wrapped failure to the caller. -/
theorem c9_encoder_contract
    (s : String)
    (upstream : GenRequest → Nat → Except String GenResponse)
    (others insps : List String) (u : String) :
    ((∃ p, dataUrlToGeminiPart s = Except.ok p) ↔ validDataUrl s)
    ∧ (∀ p, dataUrlToGeminiPart s = Except.ok p →
        p.text = none ∧ ∃ d, p.inlineData = some d)
    ∧ (¬ validDataUrl s →
        dataUrlToGeminiPart s = Except.error invalidFormatMsg
        ∧ generateVibeBasedImage upstream (s :: others) insps u =
            GenerateTrace.mk
              (Except.error ("The AI model failed to generate an image. Details: "
                ++ invalidFormatMsg)) [] []) := by
  have hiff : (∃ p, dataUrlToGeminiPart s = Except.ok p) ↔ validDataUrl s := by
    constructor
    · rintro ⟨p, hp⟩
      rw [dataUrlToGeminiPart] at hp
      cases hparse : parseDataUrl s.data with
      | none => rw [hparse] at hp; cases hp
      | some wd =>
        obtain ⟨w, d⟩ := wd
        rw [parseDataUrl] at hparse
        cases h1 : dropLead s.data headerChars with
        | none => simp only [h1] at hparse; exact Option.noConfusion hparse
        | some cs1 =>
          simp only [h1] at hparse
          cases h2 : dropLead (List.dropWhile isWordChar cs1) markerChars with
          | none => simp only [h2] at hparse; exact Option.noConfusion hparse
          | some r2 =>
            simp only [h2] at hparse
            by_cases g1 : List.takeWhile isWordChar cs1 = []
            · rw [if_pos g1] at hparse; cases hparse
            · rw [if_neg g1] at hparse
              by_cases g2 : r2.any isLineTerm = true
              · rw [if_pos g2] at hparse; cases hparse
              · rw [if_neg g2] at hparse
                have e1 := dropLead_eq_some headerChars s.data cs1 h1
                have e2 := dropLead_eq_some markerChars (List.dropWhile isWordChar cs1) r2 h2
                have e3 : cs1 = List.takeWhile isWordChar cs1 ++ (markerChars ++ r2) := by
                  rw [← e2]
                  exact (List.takeWhile_append_dropWhile isWordChar cs1).symm
                refine ⟨List.takeWhile isWordChar cs1, r2, ?_, g1, ?_, ?_⟩
                · rw [e1]
                  exact congrArg (fun x => headerChars ++ x) e3
                · intro c hc
                  exact List.mem_takeWhile_imp hc
                · intro c hc
                  cases hx : isLineTerm c
                  · rfl
                  · exact absurd (List.any_eq_true.mpr ⟨c, hc, hx⟩) g2
    · rintro ⟨w, rest, hdec, hw1, hw, hr⟩
      refine ⟨Part.mk (some (InlineData.mk ("image/" ++ String.mk w) (String.mk rest))) none, ?_⟩
      rw [dataUrlToGeminiPart]
      rw [hdec, parseDataUrl_append w rest hw1 hw hr]
  have hshape : ∀ p, dataUrlToGeminiPart s = Except.ok p →
      p.text = none ∧ ∃ d, p.inlineData = some d := by
    intro p hp
    cases hparse : parseDataUrl s.data with
    | none => simp [dataUrlToGeminiPart, hparse] at hp
    | some wd =>
      obtain ⟨w, d⟩ := wd
      simp only [dataUrlToGeminiPart, hparse] at hp
      have hpp := Except.ok.inj hp
      rw [← hpp]
      exact ⟨rfl, ⟨InlineData.mk ("image/" ++ String.mk w) (String.mk d), rfl⟩⟩
  refine ⟨hiff, hshape, ?_⟩
  intro hnv
  have herr : dataUrlToGeminiPart s = Except.error invalidFormatMsg := by
    cases hparse : parseDataUrl s.data with
    | none => rw [dataUrlToGeminiPart, hparse]
    | some wd =>
      exfalso
      apply hnv
      apply hiff.mp
      obtain ⟨w, d⟩ := wd
      exact ⟨Part.mk (some (InlineData.mk ("image/" ++ String.mk w) (String.mk d))) none,
        by rw [dataUrlToGeminiPart, hparse]⟩
  have henc : encodeAll (s :: others) = Except.error invalidFormatMsg := by
    simp only [encodeAll, herr]
  have hbp : buildParts (s :: others) insps u = Except.error invalidFormatMsg := by
    simp only [buildParts, henc]
  refine ⟨herr, ?_⟩
  simp only [generateVibeBasedImage, hbp]
  rw [wrapError, if_neg (by decide)]

/-- C9 witness: a malformed payload and a well-formed payload exercised at
concrete inputs. -/
theorem c9_witness :
    ((∃ p, dataUrlToGeminiPart "not-an-image" = Except.ok p) ↔ validDataUrl "not-an-image")
    ∧ (∀ p, dataUrlToGeminiPart "not-an-image" = Except.ok p →
        p.text = none ∧ ∃ d, p.inlineData = some d)
    ∧ (¬ validDataUrl "not-an-image" →
        dataUrlToGeminiPart "not-an-image" = Except.error invalidFormatMsg
        ∧ generateVibeBasedImage sampleUpOkAt3 ("not-an-image" :: [sampleMainUrl])
            [sampleInspUrl] "" =
            GenerateTrace.mk
              (Except.error ("The AI model failed to generate an image. Details: "
                ++ invalidFormatMsg)) [] []) :=
  c9_encoder_contract "not-an-image" sampleUpOkAt3 [sampleMainUrl] [sampleInspUrl] ""

/-- Base64 characters are not line terminators. -/
theorem isLineTerm_false_of_base64 (c : Char) (h : isBase64Char c = true) :
    isLineTerm c = false := by
  cases hx : isLineTerm c
  · rfl
  · exfalso
    simp only [isLineTerm, Bool.or_eq_true, beq_iff_eq] at hx
    rcases hx with (((h4 | h4) | h4) | h4) <;> rw [h4] at h <;> exact absurd h (by decide)

/-- C10: encoding a media type accepted by the encoder together with a
base64 payload into a wire part and decoding that part back the way the
response extractor does recovers the original media type string and the
original payload exactly. -/
theorem c10_encode_decode_roundtrip
    (mimeTail payload : String)
    (h1 : mimeTail.data ≠ [])
    (h2 : ∀ c ∈ mimeTail.data, isWordChar c = true)
    (h3 : ∀ c ∈ payload.data, isBase64Char c = true) :
    dataUrlToGeminiPart ("data:" ++ ("image/" ++ mimeTail) ++ ";base64," ++ payload)
      = Except.ok (Part.mk (some (InlineData.mk ("image/" ++ mimeTail) payload)) none)
    ∧ processGeminiResponse
        (GenResponse.mk
          [Part.mk (some (InlineData.mk ("image/" ++ mimeTail) payload)) none] none)
      = Except.ok ("data:" ++ ("image/" ++ mimeTail) ++ ";base64," ++ payload) := by
  have hr : ∀ c ∈ payload.data, isLineTerm c = false :=
    fun c hc => isLineTerm_false_of_base64 c (h3 c hc)
  have hdata : ("data:" ++ ("image/" ++ mimeTail) ++ ";base64," ++ payload).data
      = headerChars ++ (mimeTail.data ++ (markerChars ++ payload.data)) := by
    simp only [strDataAppend]
    rw [show headerChars = "data:".data ++ "image/".data from by decide]
    simp [List.append_assoc, markerChars]
  constructor
  · rw [dataUrlToGeminiPart, hdata]
    simp only [parseDataUrl_append mimeTail.data payload.data h1 h2 hr, stringMkData]
  · rfl

/-- C10 witness: round trip at a concrete media type and payload. -/
theorem c10_witness :
    ("png" : String).data ≠ []
    ∧ (dataUrlToGeminiPart ("data:" ++ ("image/" ++ "png") ++ ";base64," ++ "QUJD")
        = Except.ok (Part.mk (some (InlineData.mk ("image/" ++ "png") "QUJD")) none)
      ∧ processGeminiResponse
          (GenResponse.mk
            [Part.mk (some (InlineData.mk ("image/" ++ "png") "QUJD")) none] none)
        = Except.ok ("data:" ++ ("image/" ++ "png") ++ ";base64," ++ "QUJD")) :=
  ⟨by decide,
   c10_encode_decode_roundtrip "png" "QUJD" (by decide) (by decide) (by decide)⟩

end PerfectShot
